import Mathlib

/-!
Shallow embedding of the therapist-trainer backend (`app.py`): the LLM
invoker `call_ollama`, the sentiment thresholds of `/message`, the prompt
builders and the three POST route handlers `/start`, `/message`,
`/evaluate`.  External effects (the `ollama` subprocess and the TextBlob
sentiment library) are passed in as oracle functions; operations that can
raise a Python exception are modelled in `Except String`.  Polarity
scores are modelled as rationals, the thresholds `0.3` and `-0.3` as
`3/10` and `-3/10`.
-/

namespace TherapistTrainer

/-- One entry of the conversation history: the dict
`{"speaker": ..., "text": ...}` with the optional `"mood"` and
`"mood_score"` keys that `/message` adds to the patient entry. -/
structure ConversationEntry where
  speaker : String
  text : String
  mood : Option String
  mood_score : Option ℚ
deriving DecidableEq, Repr

/-- Mood classification of the patient reply in `/message` (app.py lines
104-109): `if mood_score > 0.3: 'Positive' elif mood_score < -0.3:
'Negative' else: 'Neutral'`. -/
def classify_mood (mood_score : ℚ) : String :=
  if mood_score > 3/10 then "Positive"
  else if mood_score < -(3/10) then "Negative"
  else "Neutral"

/-- Evaluation colour of the critique text in `/message` (app.py lines
129-134): `if polarity > 0.3: 'GREEN' elif polarity > -0.3: 'YELLOW'
else: 'RED'`. -/
def color_for (polarity : ℚ) : String :=
  if polarity > 3/10 then "GREEN"
  else if polarity > -(3/10) then "YELLOW"
  else "RED"

/-- The whitespace characters removed by Python's `str.strip()`
(modelled over the ASCII range). -/
def py_isspace (c : Char) : Bool :=
  c == ' ' || c == '\t' || c == '\n' || c == '\r' || c == '\x0b' || c == '\x0c'

/-- Python's `str.strip()`: drop leading and trailing whitespace. -/
def strip (s : String) : String :=
  ⟨((s.data.dropWhile py_isspace).reverse.dropWhile py_isspace).reverse⟩

/-- Python's `str.lower()` (modelled over the ASCII range). -/
def py_lower (s : String) : String :=
  ⟨s.data.map Char.toLower⟩

/-- Outcome of `subprocess.run(["ollama", "run", model, prompt], ...)`:
normal completion with the captured standard output, a
`CalledProcessError` raised by `check=True` on a non-zero exit (the
string rendering of the exception), or a `TimeoutExpired`. -/
inductive RunOutcome where
  | completed (stdout : String)
  | calledProcessError (detail : String)
  | timeoutExpired
deriving DecidableEq, Repr

/-- `call_ollama` (app.py lines 17-36) as a function of the subprocess
outcome: `result.stdout.strip()` on success, `f"LLM error: {e}"` on a
`CalledProcessError`, and the literal `"LLM request timed out."` on a
`TimeoutExpired`.  Both exception branches are caught, so the function
is total and never propagates an exception to its caller. -/
def call_ollama (run_result : RunOutcome) : String :=
  match run_result with
  | .completed stdout => strip stdout
  | .calledProcessError e => "LLM error: " ++ e
  | .timeoutExpired => "LLM request timed out."

/-- Python truthiness of `data.get(key)` for a string field, as used by
`not all([...])` in `start_session`: `None` (absent key) and the empty
string are falsy. -/
def truthy : Option String → Bool
  | none => false
  | some s => !s.isEmpty

/-- The initial-patient prompt of `/start` (app.py lines 54-61), with
the situation and personality already lower-cased by the caller. -/
def initial_prompt_template (situationLower personalityLower style role : String) : String :=
  "You are a patient experiencing " ++ situationLower ++ ". " ++
  "Your personality is " ++ personalityLower ++ ". " ++
  "You are engaging in a " ++ style ++ " conversation with a " ++ role ++ ". " ++
  "Please respond as the patient, conveying your feelings and thoughts authentically. Only output the response, nothing else." ++
  "while maintaining a " ++ personalityLower ++ " personality style.  " ++
  "Remember your role as the patient and focus on your immediate emotional response."

/-- `initial_prompt` as built in `start_session`: `situation.lower()`
and `personality.lower()` are embedded, style and role verbatim. -/
def initial_prompt (situation personality style role : String) : String :=
  initial_prompt_template (py_lower situation) (py_lower personality) style role

/-- Response of `/start`: either HTTP 400 `{'error': ...}` or HTTP 200
with the patient response, the seeded history and the four echoed
session parameters (app.py lines 52 and 67-74). -/
inductive StartResponse where
  | badRequest (error : String)
  | ok (response : String) (conversation_history : List ConversationEntry)
      (situation personality style role : String)
deriving DecidableEq, Repr

/-- HTTP status code of a `/start` response. -/
def StartResponse.status : StartResponse → Nat
  | .badRequest _ => 400
  | .ok _ _ _ _ _ _ => 200

/-- The seed history built by a successful `/start` (app.py lines
64-66): a single Patient entry with no mood fields. -/
def start_history (patient_response : String) : List ConversationEntry :=
  [⟨"Patient", patient_response, none, none⟩]

/-- `start_session` (app.py lines 43-74).  The four fields come from
`data.get(...)` (`none` when the key is absent); `ollama` is the oracle
giving `call_ollama`'s return value on a prompt.  `not all([...])`
rejects when any field is `None` or empty; in the success branch the
fields are known to be non-`None` strings, extracted with
`Option.getD`. -/
def start_session (situation personality style role : Option String)
    (ollama : String → String) : StartResponse :=
  if !(truthy situation && truthy personality && truthy style && truthy role) then
    .badRequest "Missing parameters"
  else
    let s := situation.getD ""
    let pers := personality.getD ""
    let st := style.getD ""
    let r := role.getD ""
    let patient_response := ollama (initial_prompt s pers st r)
    .ok patient_response (start_history patient_response) s pers st r

/-- The four session parameters as they arrive in a `/message` request
body. -/
structure SessionParams where
  situation : String
  personality : String
  style : String
  role : String
deriving DecidableEq, Repr

/-- `f"{entry['speaker']}: {entry['text']}"` for one history entry. -/
def entry_line (e : ConversationEntry) : String :=
  e.speaker ++ ": " ++ e.text

/-- The conversation-context serialization shared by `/message` (app.py
line 91) and `/evaluate` (line 164): `"\n".join(f"{entry['speaker']}:
{entry['text']}" for entry in conversation_history)`. -/
def conversation_context (h : List ConversationEntry) : String :=
  String.intercalate "\n" (h.map entry_line)

/-- The turn prompt of `/message` (app.py lines 92-96). -/
def turn_prompt (p : SessionParams) (context : String) : String :=
  "The following is a conversation between a " ++ p.role ++ " and a patient. " ++
  "As the patient, experiencing " ++ py_lower p.situation ++ ", with a " ++
  py_lower p.personality ++ " personality, and communicating in a " ++ p.style ++
  " manner, respond only with your next statement and nothing else:\n\n" ++ context

/-- The critique prompt of `/message` (app.py lines 120-123). -/
def critique_prompt (role user_message : String) : String :=
  "Evaluate the therapeutic quality of this " ++ role ++ "'s response: '" ++
  user_message ++ "'.\n" ++
  "Provide a brief, less than 20 word evaluation focusing on its helpfulness and appropriateness. Suggest a better response."

/-- The `{'color': ..., 'text': ...}` evaluation object of `/message`. -/
structure Evaluation where
  color : String
  text : String
deriving DecidableEq, Repr

/-- Response of `/message`: HTTP 200 with the enriched history, the
patient response and the evaluation, or — when an exception is caught by
the handler's `except` clause — HTTP 500 with the error string, the
(possibly partial) history and a RED evaluation (app.py lines
136-154). -/
inductive MessageResponse where
  | ok (conversation_history : List ConversationEntry) (response : String)
      (evaluation : Evaluation)
  | internalError (error : String)
      (conversation_history : List ConversationEntry) (evaluation : Evaluation)
deriving DecidableEq, Repr

/-- HTTP status code of a `/message` response. -/
def MessageResponse.status : MessageResponse → Nat
  | .ok _ _ _ => 200
  | .internalError _ _ _ => 500

/-- `message` (app.py lines 76-154).  `ollama` is the oracle standing
for `call_ollama`, which never raises (see `call_ollama`); `sentiment`
models `TextBlob(...).sentiment.polarity` and is `Except`-valued because
the library call sits inside the `try` block and may raise, in which
case the `except` clause answers with the history as accumulated at that
point. -/
def message (conversation_history : List ConversationEntry)
    (user_message : String) (p : SessionParams)
    (ollama : String → String) (sentiment : String → Except String ℚ) :
    MessageResponse :=
  let history₁ := conversation_history ++ [⟨"You", user_message, none, none⟩]
  let prompt := turn_prompt p (conversation_context history₁)
  let patient_response := ollama prompt
  match sentiment patient_response with
  | .error e => .internalError e history₁ ⟨"RED", "Error: " ++ e⟩
  | .ok mood_score =>
    let mood := classify_mood mood_score
    let history₂ := history₁ ++
      [⟨"Patient", patient_response, some mood, some mood_score⟩]
    let eval_text := strip (ollama (critique_prompt p.role user_message))
    match sentiment eval_text with
    | .error e => .internalError e history₂ ⟨"RED", "Error: " ++ e⟩
    | .ok polarity =>
      .ok history₂ patient_response ⟨color_for polarity, eval_text⟩

/-- Iterating successful `/message` calls: feed each user message in
turn, threading the returned history, and stop with `none` as soon as a
call does not return HTTP 200. -/
def run_turns (p : SessionParams) (ollama : String → String)
    (sentiment : String → Except String ℚ) :
    List String → List ConversationEntry → Option (List ConversationEntry)
  | [], h => some h
  | m :: ms, h =>
    match message h m p ollama sentiment with
    | .ok h' _ _ => run_turns p ollama sentiment ms h'
    | .internalError _ _ _ => none

/-- Response of `/evaluate`: HTTP 400 `{'error': ...}` on an empty (or
absent) history, otherwise HTTP 200 with the single field
`{'evaluation': ...}` — by construction this response carries no colour
field (app.py lines 161-173). -/
inductive EvaluateResponse where
  | badRequest (error : String)
  | ok (evaluation : String)
deriving DecidableEq, Repr

/-- HTTP status code of an `/evaluate` response. -/
def EvaluateResponse.status : EvaluateResponse → Nat
  | .badRequest _ => 400
  | .ok _ => 200

/-- The session-evaluation prompt of `/evaluate` (app.py lines
165-169). -/
def session_eval_prompt (conversation_text : String) : String :=
  "Review the following therapy session conversation:\n" ++ conversation_text ++ "\n" ++
  "Provide a constructive evaluation and feedback of the session, noting strengths and areas for improvement.  " ++
  "Be specific and concise."

/-- `evaluate` (app.py lines 156-173); the history argument models
`data.get('conversation_history', [])`, so an absent field defaults to
the empty list. -/
def evaluate (conversation_history : Option (List ConversationEntry))
    (ollama : String → String) : EvaluateResponse :=
  let h := conversation_history.getD []
  if h.isEmpty then .badRequest "No conversation history provided"
  else .ok (ollama (session_eval_prompt (conversation_context h)))

/-- The spec-side description of the context string, written from the
spec's words for the refinement claim: the history entries serialized as
"speaker: text" lines joined by newlines in their original order. -/
def spec_context_lines : List ConversationEntry → String
  | [] => ""
  | [e] => e.speaker ++ ": " ++ e.text
  | e :: rest => e.speaker ++ ": " ++ e.text ++ "\n" ++ spec_context_lines rest

end TherapistTrainer

namespace TherapistTrainer

/-- C1: the evaluation colour mapper of `/message` returns GREEN iff the
polarity exceeds 0.3, YELLOW iff it lies in (-0.3, 0.3], and RED iff it
is at most -0.3; at the boundary -0.3 the mood classifier says Neutral
while the colour mapper says RED. -/
theorem color_for_characterization (s : ℚ) :
    (color_for s = "GREEN" ↔ s > 3/10) ∧
    (color_for s = "YELLOW" ↔ (-(3/10) < s ∧ s ≤ 3/10)) ∧
    (color_for s = "RED" ↔ s ≤ -(3/10)) ∧
    (classify_mood (-(3/10)) = "Neutral" ∧ color_for (-(3/10)) = "RED") := by
  refine ⟨?_, ?_, ?_, by norm_num [classify_mood], by norm_num [color_for]⟩
  · unfold color_for
    split_ifs with h1 h2
    · exact iff_of_true rfl h1
    · exact iff_of_false (by decide) h1
    · exact iff_of_false (by decide) h1
  · unfold color_for
    split_ifs with h1 h2
    · exact iff_of_false (by decide) (fun hc => absurd h1 (not_lt.mpr hc.2))
    · exact iff_of_true rfl ⟨h2, not_lt.mp h1⟩
    · exact iff_of_false (by decide) (fun hc => h2 hc.1)
  · unfold color_for
    split_ifs with h1 h2
    · exact iff_of_false (by decide) (not_le.mpr (by linarith))
    · exact iff_of_false (by decide) (not_le.mpr h2)
    · exact iff_of_true rfl (not_lt.mp h2)

/-- C2: the mood classifier of `/message` returns Positive iff the score
exceeds 0.3, Negative iff it is below -0.3, and Neutral otherwise, i.e.
exactly on [-0.3, 0.3]. -/
theorem classify_mood_characterization (s : ℚ) :
    (classify_mood s = "Positive" ↔ s > 3/10) ∧
    (classify_mood s = "Negative" ↔ s < -(3/10)) ∧
    (classify_mood s = "Neutral" ↔ (-(3/10) ≤ s ∧ s ≤ 3/10)) := by
  refine ⟨?_, ?_, ?_⟩
  · unfold classify_mood
    split_ifs with h1 h2
    · exact iff_of_true rfl h1
    · exact iff_of_false (by decide) h1
    · exact iff_of_false (by decide) h1
  · unfold classify_mood
    split_ifs with h1 h2
    · exact iff_of_false (by decide) (not_lt.mpr (by linarith))
    · exact iff_of_true rfl h2
    · exact iff_of_false (by decide) h2
  · unfold classify_mood
    split_ifs with h1 h2
    · exact iff_of_false (by decide) (fun hc => absurd h1 (not_lt.mpr hc.2))
    · exact iff_of_false (by decide) (fun hc => absurd h2 (not_lt.mpr hc.1))
    · exact iff_of_true rfl ⟨not_lt.mp h2, not_lt.mp h1⟩

/-- C3: `call_ollama` never raises to its caller — it is a total
function of the subprocess outcome — returning the trimmed standard
output on success, a string prefixed "LLM error: " embedding the error
detail on a non-zero exit, and exactly the literal
"LLM request timed out." on a timeout. -/
theorem call_ollama_never_raises (stdout detail : String) :
    call_ollama (.completed stdout) = strip stdout ∧
    call_ollama (.calledProcessError detail) = "LLM error: " ++ detail ∧
    call_ollama .timeoutExpired = "LLM request timed out." :=
  ⟨rfl, rfl, rfl⟩

lemma classify_mood_zero : classify_mood 0 = "Neutral" := by
  norm_num [classify_mood]

lemma color_for_zero : color_for 0 = "YELLOW" := by
  norm_num [color_for]

lemma message_ok_shape {H : List ConversationEntry} {u : String}
    {p : SessionParams} {ollama : String → String}
    {sentiment : String → Except String ℚ}
    {hist : List ConversationEntry} {resp : String} {ev : Evaluation}
    (hok : message H u p ollama sentiment = .ok hist resp ev) :
    ∃ q : ℚ, hist = H ++ [⟨"You", u, none, none⟩,
      ⟨"Patient", resp, some (classify_mood q), some q⟩] := by
  simp only [message] at hok
  split at hok
  · cases hok
  · rename_i q hq
    split at hok
    · cases hok
    · cases hok
      exact ⟨q, by simp⟩

lemma run_turns_length (p : SessionParams) (ollama : String → String)
    (sentiment : String → Except String ℚ) :
    ∀ (msgs : List String) (h f : List ConversationEntry),
      run_turns p ollama sentiment msgs h = some f →
      f.length = h.length + 2 * msgs.length := by
  intro msgs
  induction msgs with
  | nil =>
    intro h f hr
    simp only [run_turns, Option.some.injEq] at hr
    simp [hr]
  | cons m ms ih =>
    intro h f hr
    simp only [run_turns] at hr
    split at hr
    · rename_i h' r e hmsg
      obtain ⟨q, hq⟩ := message_ok_shape hmsg
      have hlen := ih h' f hr
      have : h'.length = h.length + 2 := by simp [hq]
      rw [this] at hlen
      simp [hlen]
      ring
    · cases hr

/-- C4: a successful `/message` call returns the input history unchanged
as a prefix, followed by exactly two new entries — the user's "You"
entry and then the patient's "Patient" entry — and therefore iterating N
successful `/message` calls from the one-entry `/start` seed history
yields a history of length 1 + 2N. -/
theorem message_history_append_only
    (H : List ConversationEntry) (u : String) (p : SessionParams)
    (ollama : String → String) (sentiment : String → Except String ℚ)
    (hist : List ConversationEntry) (resp : String) (ev : Evaluation)
    (msgs : List String) (seed : String) (final : List ConversationEntry)
    (hok : message H u p ollama sentiment = .ok hist resp ev)
    (hrun : run_turns p ollama sentiment msgs (start_history seed) = some final) :
    (∃ pe : ConversationEntry, pe.speaker = "Patient" ∧
      hist = H ++ [⟨"You", u, none, none⟩, pe]) ∧
    final.length = 1 + 2 * msgs.length := by
  constructor
  · obtain ⟨q, hq⟩ := message_ok_shape hok
    exact ⟨_, rfl, hq⟩
  · have := run_turns_length p ollama sentiment msgs _ final hrun
    simpa [start_history] using this

/-- Witness for C4: the concrete run with `ollama` answering "ok" and a
sentiment oracle always returning 0. -/
theorem message_history_append_only_witness :
    (message [] "hi" ⟨"a", "b", "c", "d"⟩ (fun _ => "ok") (fun _ => Except.ok 0) =
      .ok [⟨"You", "hi", none, none⟩, ⟨"Patient", "ok", some "Neutral", some 0⟩]
        "ok" ⟨"YELLOW", "ok"⟩) ∧
    (run_turns ⟨"a", "b", "c", "d"⟩ (fun _ => "ok") (fun _ => Except.ok 0) ["hi"]
      (start_history "s") =
      some [⟨"Patient", "s", none, none⟩, ⟨"You", "hi", none, none⟩,
        ⟨"Patient", "ok", some "Neutral", some 0⟩]) ∧
    ((∃ pe : ConversationEntry, pe.speaker = "Patient" ∧
      [⟨"You", "hi", none, none⟩,
        ⟨"Patient", "ok", some "Neutral", some (0 : ℚ)⟩] =
        [] ++ [⟨"You", "hi", none, none⟩, pe]) ∧
      ([⟨"Patient", "s", none, none⟩, ⟨"You", "hi", none, none⟩,
        ⟨"Patient", "ok", some "Neutral", some (0 : ℚ)⟩] :
          List ConversationEntry).length = 1 + 2 * (["hi"] : List String).length) := by
  have h1 : message [] "hi" ⟨"a", "b", "c", "d"⟩ (fun _ => "ok") (fun _ => Except.ok 0) =
      .ok [⟨"You", "hi", none, none⟩, ⟨"Patient", "ok", some "Neutral", some 0⟩]
        "ok" ⟨"YELLOW", "ok"⟩ := by
    simp only [message, classify_mood_zero, color_for_zero]
    decide
  have h2 : run_turns ⟨"a", "b", "c", "d"⟩ (fun _ => "ok") (fun _ => Except.ok 0) ["hi"]
      (start_history "s") =
      some [⟨"Patient", "s", none, none⟩, ⟨"You", "hi", none, none⟩,
        ⟨"Patient", "ok", some "Neutral", some 0⟩] := by
    simp only [run_turns, message, classify_mood_zero, color_for_zero]
    decide
  exact ⟨h1, h2,
    message_history_append_only [] "hi" ⟨"a", "b", "c", "d"⟩ (fun _ => "ok")
      (fun _ => Except.ok 0) _ "ok" ⟨"YELLOW", "ok"⟩ ["hi"] "s" _ h1 h2⟩

/-- C5: whenever an exception is raised during `/message` processing,
the handler returns HTTP 500 with a body carrying the error string, the
(possibly partial) conversation history — of which the input history is
still a prefix — and an evaluation of colour RED whose text is "Error: "
followed by the error text. -/
theorem message_exception_returns_red
    (H : List ConversationEntry) (u : String) (p : SessionParams)
    (ollama : String → String) (sentiment : String → Except String ℚ)
    (e : String) (hist : List ConversationEntry) (ev : Evaluation)
    (herr : message H u p ollama sentiment = .internalError e hist ev) :
    (message H u p ollama sentiment).status = 500 ∧
    ev = ⟨"RED", "Error: " ++ e⟩ ∧ H <+: hist := by
  refine ⟨by rw [herr]; rfl, ?_⟩
  simp only [message] at herr
  split at herr
  · cases herr
    exact ⟨rfl, ⟨[⟨"You", u, none, none⟩], rfl⟩⟩
  · split at herr
    · cases herr
      exact ⟨rfl, ⟨_, (List.append_assoc _ _ _).symm⟩⟩
    · cases herr

/-- Witness for C5: a sentiment oracle that raises "boom" on the first
call makes `/message` answer 500 with the partial one-entry history and
a RED "Error: boom" evaluation. -/
theorem message_exception_returns_red_witness :
    (message [] "hi" ⟨"a", "b", "c", "d"⟩ (fun _ => "ok")
        (fun _ => Except.error "boom") =
      .internalError "boom" [⟨"You", "hi", none, none⟩]
        ⟨"RED", "Error: boom"⟩) ∧
    ((message [] "hi" ⟨"a", "b", "c", "d"⟩ (fun _ => "ok")
        (fun _ => Except.error "boom")).status = 500 ∧
      (⟨"RED", "Error: boom"⟩ : Evaluation) = ⟨"RED", "Error: " ++ "boom"⟩ ∧
      ([] : List ConversationEntry) <+: [⟨"You", "hi", none, none⟩]) := by
  have h1 : message [] "hi" ⟨"a", "b", "c", "d"⟩ (fun _ => "ok")
      (fun _ => Except.error "boom") =
      .internalError "boom" [⟨"You", "hi", none, none⟩]
        ⟨"RED", "Error: boom"⟩ := by
    simp only [message]
    decide
  exact ⟨h1, message_exception_returns_red [] "hi" ⟨"a", "b", "c", "d"⟩
    (fun _ => "ok") (fun _ => Except.error "boom") "boom"
    [⟨"You", "hi", none, none⟩] ⟨"RED", "Error: boom"⟩ h1⟩

/-- C6: `/start` returns HTTP 400 with an error body when any one of the
four fields situation, personality, style, role is empty or absent, and
otherwise proceeds to build the initial prompt and returns the seeded
one-entry history together with the echoed parameters. -/
theorem start_session_validation (situation personality style role : Option String)
    (ollama : String → String) :
    if truthy situation && truthy personality && truthy style && truthy role then
      (start_session situation personality style role ollama).status = 200 ∧
      start_session situation personality style role ollama =
        .ok (ollama (initial_prompt (situation.getD "") (personality.getD "")
            (style.getD "") (role.getD "")))
          (start_history (ollama (initial_prompt (situation.getD "") (personality.getD "")
            (style.getD "") (role.getD ""))))
          (situation.getD "") (personality.getD "") (style.getD "") (role.getD "")
    else
      (start_session situation personality style role ollama).status = 400 ∧
      start_session situation personality style role ollama =
        .badRequest "Missing parameters" := by
  rcases hb : (truthy situation && truthy personality && truthy style && truthy role) with _ | _
  · simp [hb, start_session, StartResponse.status]
  · simp [hb, start_session, StartResponse.status]

/-- C7: `/evaluate` returns HTTP 400 with an error body when the
conversation history is empty or absent, and for a non-empty history
returns HTTP 200 whose body is only the raw evaluation text — the
`EvaluateResponse.ok` constructor has no colour field. -/
theorem evaluate_validation (conversation_history : Option (List ConversationEntry))
    (ollama : String → String) :
    if (conversation_history.getD []).isEmpty then
      (evaluate conversation_history ollama).status = 400 ∧
      evaluate conversation_history ollama =
        .badRequest "No conversation history provided"
    else
      (evaluate conversation_history ollama).status = 200 ∧
      evaluate conversation_history ollama =
        .ok (ollama (session_eval_prompt
          (conversation_context (conversation_history.getD [])))) := by
  rcases hb : (conversation_history.getD []).isEmpty with _ | _
  · simp [hb, evaluate, EvaluateResponse.status]
  · simp [hb, evaluate, EvaluateResponse.status]

lemma intercalate_go_append (s : String) :
    ∀ (l : List String) (acc₁ acc₂ : String),
      String.intercalate.go (acc₁ ++ acc₂) s l =
        acc₁ ++ String.intercalate.go acc₂ s l := by
  intro l
  induction l with
  | nil => intro acc₁ acc₂; rfl
  | cons a t ih =>
    intro acc₁ acc₂
    calc String.intercalate.go (acc₁ ++ acc₂) s (a :: t)
        = String.intercalate.go (acc₁ ++ acc₂ ++ s ++ a) s t := rfl
      _ = String.intercalate.go (acc₁ ++ (acc₂ ++ s ++ a)) s t := by
            simp [String.append_assoc]
      _ = acc₁ ++ String.intercalate.go (acc₂ ++ s ++ a) s t := ih _ _
      _ = acc₁ ++ String.intercalate.go acc₂ s (a :: t) := rfl

lemma conversation_context_cons (e e' : ConversationEntry)
    (t : List ConversationEntry) :
    conversation_context (e :: e' :: t) =
      entry_line e ++ "\n" ++ conversation_context (e' :: t) := by
  calc conversation_context (e :: e' :: t)
      = String.intercalate.go (entry_line e ++ "\n" ++ entry_line e') "\n"
          (t.map entry_line) := rfl
    _ = (entry_line e ++ "\n") ++
          String.intercalate.go (entry_line e') "\n" (t.map entry_line) :=
        intercalate_go_append "\n" (t.map entry_line) (entry_line e ++ "\n")
          (entry_line e')
    _ = entry_line e ++ "\n" ++ conversation_context (e' :: t) := rfl

/-- C8: the context string embedded in the turn prompt of `/message` and
in the session-evaluation prompt of `/evaluate` — both handlers pass
`conversation_context` of their history to the prompt builder — equals
the history entries serialized as "speaker: text" lines joined by
newlines in their original order. -/
theorem conversation_context_matches_spec (H : List ConversationEntry) :
    conversation_context H = spec_context_lines H := by
  induction H with
  | nil => rfl
  | cons e t ih =>
    cases t with
    | nil => rfl
    | cons e' t' =>
      rw [conversation_context_cons, ih]
      rfl

lemma truthy_some_getD {o : Option String} (h : truthy o = true) :
    o = some (o.getD "") := by
  cases o with
  | none => simp [truthy] at h
  | some v => rfl

/-- C9: in the history returned by a successful `/message` call, only
the appended Patient entry carries the mood and mood_score fields, while
the appended "You" entry — and every entry of the history seeded by a
successful `/start` — carries no mood information. -/
theorem mood_fields_only_on_message_patient
    (H : List ConversationEntry) (u : String) (pa : SessionParams)
    (ollama₁ ollama₂ : String → String) (sentiment : String → Except String ℚ)
    (hist hist₀ : List ConversationEntry) (resp resp₀ : String) (ev : Evaluation)
    (s? p? st? r? : Option String) (s pe st r : String)
    (hok : message H u pa ollama₁ sentiment = .ok hist resp ev)
    (hstart : start_session s? p? st? r? ollama₂ = .ok resp₀ hist₀ s pe st r) :
    (∃ q : ℚ, hist = H ++
      [⟨"You", u, none, none⟩,
       ⟨"Patient", resp, some (classify_mood q), some q⟩]) ∧
    (∀ e ∈ hist₀, e.mood = none ∧ e.mood_score = none) := by
  refine ⟨message_ok_shape hok, ?_⟩
  simp only [start_session] at hstart
  split at hstart
  · cases hstart
  · cases hstart
    intro e he
    simp only [start_history, List.mem_singleton] at he
    subst he
    exact ⟨rfl, rfl⟩

/-- Witness for C9: concrete successful `/message` and `/start` calls. -/
theorem mood_fields_only_on_message_patient_witness :
    (message [] "hi" ⟨"a", "b", "c", "d"⟩ (fun _ => "ok") (fun _ => Except.ok 0) =
      .ok [⟨"You", "hi", none, none⟩, ⟨"Patient", "ok", some "Neutral", some 0⟩]
        "ok" ⟨"YELLOW", "ok"⟩) ∧
    (start_session (some "A") (some "B") (some "c") (some "d") (fun _ => "hello") =
      .ok "hello" [⟨"Patient", "hello", none, none⟩] "A" "B" "c" "d") ∧
    ((∃ q : ℚ,
        ([⟨"You", "hi", none, none⟩,
          ⟨"Patient", "ok", some "Neutral", some (0 : ℚ)⟩] :
            List ConversationEntry) =
          [] ++ [⟨"You", "hi", none, none⟩,
            ⟨"Patient", "ok", some (classify_mood q), some q⟩]) ∧
      (∀ e ∈ ([⟨"Patient", "hello", none, none⟩] : List ConversationEntry),
        e.mood = none ∧ e.mood_score = none)) := by
  have h1 : message [] "hi" ⟨"a", "b", "c", "d"⟩ (fun _ => "ok")
      (fun _ => Except.ok 0) =
      .ok [⟨"You", "hi", none, none⟩, ⟨"Patient", "ok", some "Neutral", some 0⟩]
        "ok" ⟨"YELLOW", "ok"⟩ := by
    simp only [message, classify_mood_zero, color_for_zero]
    decide
  have h2 : start_session (some "A") (some "B") (some "c") (some "d")
      (fun _ => "hello") =
      .ok "hello" [⟨"Patient", "hello", none, none⟩] "A" "B" "c" "d" := by
    decide
  exact ⟨h1, h2, mood_fields_only_on_message_patient [] "hi" ⟨"a", "b", "c", "d"⟩
    (fun _ => "ok") (fun _ => "hello") (fun _ => Except.ok 0) _ _ "ok" "hello"
    ⟨"YELLOW", "ok"⟩ (some "A") (some "B") (some "c") (some "d")
    "A" "B" "c" "d" h1 h2⟩

/-- C10: on success `/start` echoes situation, personality, style and
role back exactly as received — unchanged — even though the initial
prompt handed to the LLM embeds lower-cased copies of situation and
personality. -/
theorem start_echoes_params_verbatim
    (situation personality style role : Option String)
    (ollama : String → String) (resp : String)
    (hist : List ConversationEntry) (s pe st r : String)
    (hstart : start_session situation personality style role ollama =
      .ok resp hist s pe st r) :
    (situation = some s ∧ personality = some pe ∧ style = some st ∧ role = some r) ∧
    resp = ollama (initial_prompt_template (py_lower s) (py_lower pe) st r) := by
  simp only [start_session] at hstart
  split at hstart
  · cases hstart
  · rename_i hcond
    have h4 : truthy situation = true ∧ truthy personality = true ∧
        truthy style = true ∧ truthy role = true := by
      simpa [Bool.and_eq_true, and_assoc] using hcond
    cases hstart
    exact ⟨⟨truthy_some_getD h4.1, truthy_some_getD h4.2.1,
      truthy_some_getD h4.2.2.1, truthy_some_getD h4.2.2.2⟩, rfl⟩

/-- Witness for C10: a concrete `/start` call with mixed-case inputs. -/
theorem start_echoes_params_verbatim_witness :
    (start_session (some "Anxiety") (some "Avoidant") (some "Formal") (some "Therapist")
      (fun _ => "hello") =
      .ok "hello" [⟨"Patient", "hello", none, none⟩]
        "Anxiety" "Avoidant" "Formal" "Therapist") ∧
    ((some "Anxiety" = some "Anxiety" ∧ some "Avoidant" = some "Avoidant" ∧
        some "Formal" = some "Formal" ∧ some "Therapist" = some "Therapist") ∧
      "hello" = (fun _ => "hello")
        (initial_prompt_template (py_lower "Anxiety") (py_lower "Avoidant")
          "Formal" "Therapist")) := by
  have h1 : start_session (some "Anxiety") (some "Avoidant") (some "Formal")
      (some "Therapist") (fun _ => "hello") =
      .ok "hello" [⟨"Patient", "hello", none, none⟩]
        "Anxiety" "Avoidant" "Formal" "Therapist" := by
    decide
  exact ⟨h1, start_echoes_params_verbatim (some "Anxiety") (some "Avoidant")
    (some "Formal") (some "Therapist") (fun _ => "hello") "hello"
    [⟨"Patient", "hello", none, none⟩]
    "Anxiety" "Avoidant" "Formal" "Therapist" h1⟩

end TherapistTrainer

